import Mathlib

/-!
Verification development for the ThousandEyes API test-automation module
(te_tests.py): the resilient API request layer (retry/backoff and
rate-limit handling) and its higher-level collaborator functions
(agent lookup, test lookup/creation, result retrieval, result analysis,
report persistence).

The network is modelled as a finite script of attempt outcomes: each
network call consumes the next scripted outcome (a response or a
network-level error).  JSON bodies are modelled by an explicit inductive
type, and Python dictionary/index accesses by Option/Except-valued
accessors so that raised exceptions are explicit values.
-/

namespace TeTests

/-- JSON values, as produced by Python's json module.  Integers and
floats are distinguished as in Python; a float is carried as a decimal
mantissa/exponent pair (`num m e` denotes m / 10^e), which is how every
literal in the repository's data appears. -/
inductive Json where
  | null
  | b (v : Bool)
  | i (v : Int)
  | num (mant : Int) (exp : Nat)
  | s (v : String)
  | arr (items : List Json)
  | obj (fields : List (String × Json))

/-- An HTTP response as the `requests` library presents it: status code,
response headers, the parsed JSON body (`response.json()`), and the raw
text (`response.text`). -/
structure HttpResponse where
  status : Nat
  headers : List (String × String)
  jsonBody : Json
  text : String

/-- `response.ok` in the requests library: true iff the status code is
below 400. -/
def HttpResponse.isOk (r : HttpResponse) : Bool := r.status < 400

/-- The outcome of one network attempt: either a response arrived, or the
request raised a network-level error. -/
inductive AttemptResult where
  | resp (r : HttpResponse)
  | netErr (msg : String)

/-- Configuration of the retry/backoff executor: maximum transient
attempt count, base backoff delay (seconds), backoff cap (seconds), the
provider-specific rate-limit reset header name, and the fallback wait
used when that header is absent or unparsable. -/
structure RetryConfig where
  maxAttempts : Nat
  baseDelay : Nat
  maxDelay : Nat
  rateLimitHeader : String
  rateLimitFallback : Nat
deriving Repr, DecidableEq

/-- Errors raised by the request executor: a terminal (non-retryable)
status, or exhaustion of the transient-retry budget. -/
inductive ApiError where
  | terminalStatus (status : Nat)
  | retriesExhausted
deriving Repr, DecidableEq

/-- Result of running the executor against a finite script of attempt
outcomes.  `outOfScript` is a modelling artifact only: it means the
finite script ran out of outcomes before the executor resolved, which
cannot happen against a real server (every call yields an outcome). -/
inductive ApiOutcome where
  | ok (r : HttpResponse)
  | err (e : ApiError)
  | outOfScript

/-- Observable side-effect trace of one executor invocation: how many
network calls were performed and the list of sleep durations (seconds),
in chronological order. -/
structure Trace where
  calls : Nat
  sleeps : List Nat
deriving Repr, DecidableEq

/-- 2xx success statuses. -/
def is2xx (s : Nat) : Bool := 200 ≤ s && s < 300

/-- 5xx server-error statuses (transient failures). -/
def is5xx (s : Nat) : Bool := 500 ≤ s && s < 600

/-- The numeric value of a decimal digit character, none otherwise. -/
def digitVal (c : Char) : Option Nat :=
  if c.isDigit then some (c.toNat - 48) else none

/-- Parse a run of decimal digits, accumulating the value; fails on the
first non-digit. -/
def parseNatCore : List Char → Nat → Option Nat
  | [], acc => some acc
  | c :: cs, acc =>
    match digitVal c with
    | some d => parseNatCore cs (acc * 10 + d)
    | none => none

/-- Parse a non-empty all-digit string as a natural number (the model of
Python's `int(...)` applied to a header value). -/
def parseNat (s : String) : Option Nat :=
  match s.data with
  | [] => none
  | cs => parseNatCore cs 0

/-- Modelled from the spec: the wait duration taken from a 429 response:
the provider's reset hint read from the configured header, interpreted
as a delay in seconds, defaulting to the configured fallback when the
header is absent or unparsable (spec section 4.1 step 3). -/
def resetWait (cfg : RetryConfig) (r : HttpResponse) : Nat :=
  ((r.headers.lookup cfg.rateLimitHeader).bind parseNat).getD cfg.rateLimitFallback

/-- Modelled from the spec: the retry/backoff loop of `api_request`
(the Task 3 implementation is absent from the repository snapshot; only
its declaration, docstring and unit tests are present, so the body
follows spec section 4.1).  `attempts` is the transient-failure counter,
`delay` the current backoff delay; the script is consumed one outcome
per network call.
Steps: 2xx returns immediately; 429 sleeps for the header-communicated
reset hint and retries without touching the transient counter; 5xx or a
network error increments the counter, raises when the maximum is
reached, otherwise sleeps for the current delay, doubles it (capped),
and retries; any other non-2xx status raises immediately. -/
def apiRequestGo (cfg : RetryConfig) (attempts delay : Nat) :
    List AttemptResult → ApiOutcome × Trace
  | [] => (.outOfScript, ⟨0, []⟩)
  | .resp r :: rest =>
    if is2xx r.status then
      (.ok r, ⟨1, []⟩)
    else if r.status = 429 then
      let wait := resetWait cfg r
      let p := apiRequestGo cfg attempts delay rest
      (p.1, ⟨p.2.calls + 1, wait :: p.2.sleeps⟩)
    else if is5xx r.status then
      if cfg.maxAttempts ≤ attempts + 1 then
        (.err .retriesExhausted, ⟨1, []⟩)
      else
        let p := apiRequestGo cfg (attempts + 1) (min (delay * 2) cfg.maxDelay) rest
        (p.1, ⟨p.2.calls + 1, delay :: p.2.sleeps⟩)
    else
      (.err (.terminalStatus r.status), ⟨1, []⟩)
  | .netErr _ :: rest =>
    if cfg.maxAttempts ≤ attempts + 1 then
      (.err .retriesExhausted, ⟨1, []⟩)
    else
      let p := apiRequestGo cfg (attempts + 1) (min (delay * 2) cfg.maxDelay) rest
      (p.1, ⟨p.2.calls + 1, delay :: p.2.sleeps⟩)

/-- Modelled from the spec: `api_request` run against a script of
attempt outcomes, starting with a zero transient counter and the base
backoff delay. -/
def api_request (cfg : RetryConfig) (script : List AttemptResult) :
    ApiOutcome × Trace :=
  apiRequestGo cfg 0 cfg.baseDelay script

/-- A retry configuration matching the repository's unit tests and the
spec's design targets: 3 transient attempts, 1 s base delay, 30 s cap,
the tested reset header name, 60 s fallback. -/
def cfgTE : RetryConfig :=
  ⟨3, 1, 30, "X-Organization-Rate-Limit-Reset", 60⟩

/-- A plain response with a given status and body and no headers. -/
def respOf (status : Nat) (text : String) : HttpResponse :=
  ⟨status, [], .null, text⟩

/-- A 429 response carrying the tested reset header with value 60. -/
def resp429 : HttpResponse :=
  ⟨429, [("X-Organization-Rate-Limit-Reset", "60")], .null, "rate limited"⟩

/-- Python exceptions raised inside the collaborator bodies, carried as
explicit values. -/
inductive PyError where
  | keyError (key : String)
  | valueError (msg : String)
  | typeError (msg : String)
  | attributeError (msg : String)
  | indexError (msg : String)
deriving Repr, DecidableEq

/-- Log levels used by the module's logger. -/
inductive LogLevel where
  | info
  | warning
  | error
deriving Repr, DecidableEq

/-- One emitted log line: level and message. -/
abbrev LogLine := LogLevel × String

/-- Python truthiness of a JSON value (`if agents:` etc.). -/
def jtruthy : Json → Bool
  | .null => false
  | .b v => v
  | .i n => n != 0
  | .num m _ => m != 0
  | .s v => v != ""
  | .arr items => !items.isEmpty
  | .obj fields => !fields.isEmpty

/-- Python `d.get(key)`: `ok none` when the key is absent; raises
AttributeError when the receiver is not a dictionary. -/
def pyGet (j : Json) (key : String) : Except PyError (Option Json) :=
  match j with
  | .obj fields => .ok (fields.lookup key)
  | _ => .error (.attributeError "get")

/-- Python `d[key]` subscription: KeyError when the key is absent,
TypeError when the receiver is not a dictionary. -/
def pySub (j : Json) (key : String) : Except PyError Json :=
  match j with
  | .obj fields =>
    match fields.lookup key with
    | some v => .ok v
    | none => .error (.keyError key)
  | _ => .error (.typeError "not subscriptable")

/-- Python `xs[0]`: the first element of a non-empty list; IndexError on
an empty list; TypeError on a non-list (string subscription does not
occur in this module). -/
def pyIndex0 (j : Json) : Except PyError Json :=
  match j with
  | .arr (x :: _) => .ok x
  | .arr [] => .error (.indexError "list index out of range")
  | _ => .error (.typeError "not subscriptable")

/-- Python `int(x)` on a JSON value: ints pass through, strings are
parsed as (optionally minus-signed) decimal integers raising ValueError
otherwise, floats truncate toward zero, other values (None included)
raise TypeError. -/
def pyInt (j : Json) : Except PyError Int :=
  match j with
  | .i n => .ok n
  | .s v =>
    match v.data with
    | '-' :: cs =>
      match parseNat (String.mk cs) with
      | some n => .ok (-(n : Int))
      | none => .error (.valueError v)
    | _ =>
      match parseNat v with
      | some n => .ok ((n : Int))
      | none => .error (.valueError v)
  | .num m e => .ok (Int.sign m * ((m.natAbs / 10 ^ e : Nat) : Int))
  | _ => .error (.typeError "int() argument")

/-- Python `value == target` where the target is a str: true exactly
when the value is that very string (Python equality between a str and a
non-str value is False). -/
def jeqStr (j : Option Json) (target : String) : Bool :=
  match j with
  | some (.s v) => v == target
  | _ => false

/-- Zero-pad a digit string on the left to the given width. -/
def padZeros (s : String) (width : Nat) : String :=
  String.mk (List.replicate (width - s.length) '0') ++ s

/-- Render the decimal float `m / 10^exp` the way Python prints the
repository's float data (sign, integer part, point, fractional
digits). -/
def decStr (m : Int) (e : Nat) : String :=
  if e = 0 then toString m ++ ".0"
  else
    (if m < 0 then "-" else "") ++
      toString (m.natAbs / 10 ^ e) ++ "." ++ padZeros (toString (m.natAbs % 10 ^ e)) e

mutual
/-- Python `repr()` of a JSON value (used by `str()` for containers). -/
def jrepr : Json → String
  | .null => "None"
  | .b true => "True"
  | .b false => "False"
  | .i n => toString n
  | .num m e => decStr m e
  | .s v => "\x27" ++ v ++ "\x27"
  | .arr [] => "[]"
  | .arr (x :: xs) => "[" ++ jreprItems x xs ++ "]"
  | .obj [] => "\x7b\x7d"
  | .obj (f :: fs) => "\x7b" ++ jreprFields f fs ++ "\x7d"
termination_by j => sizeOf j

/-- Comma-separated reprs of the elements of a non-empty list. -/
def jreprItems (x : Json) (xs : List Json) : String :=
  match xs with
  | [] => jrepr x
  | y :: ys => jrepr x ++ ", " ++ jreprItems y ys
termination_by sizeOf x + sizeOf xs

/-- Comma-separated `key: repr value` pairs of a non-empty field list. -/
def jreprFields (f : String × Json) (fs : List (String × Json)) : String :=
  match f, fs with
  | (k, v), [] => "\x27" ++ k ++ "\x27: " ++ jrepr v
  | (k, v), g :: gs => "\x27" ++ k ++ "\x27: " ++ jrepr v ++ ", " ++ jreprFields g gs
termination_by sizeOf f + sizeOf fs
end

/-- Python `str()` of a JSON value, as interpolated into f-strings. -/
def jstr : Json → String
  | .s v => v
  | j => jrepr j

/-- Interpolation of a value that may be Python `None` (from `.get`). -/
def optJstr : Option Json → String
  | some v => jstr v
  | none => "None"

/-- Python `str()` of a raised error, as interpolated into except-branch
log messages (`str(KeyError(k))` shows the quoted key). -/
def pyErrStr : PyError → String
  | .keyError k => "\x27" ++ k ++ "\x27"
  | .valueError m => m
  | .typeError m => m
  | .attributeError m => m
  | .indexError m => m

/-- The body of `get_first_agent_id` after the GET request, translated
line by line from the source: on an ok response take
`json().get("agents", [])`; if truthy, log the first agent's name and id
(both bracket subscripts, so either can raise) and return
`int(agent["agentId"])` (the subscript is evaluated a second time, as in
the source); on an empty array log a warning and return None; on a
non-ok response log an error and return None. -/
def get_first_agent_id (resp : HttpResponse) :
    Except PyError (Option Int) × List LogLine :=
  let l0 : LogLine := (.info, "Attempting to fetch the first agent ID.")
  if resp.isOk then
    match pyGet resp.jsonBody "agents" with
    | .error e => (.error e, [l0])
    | .ok agents0 =>
      let agents := agents0.getD (.arr [])
      if jtruthy agents then
        match pyIndex0 agents with
        | .error e => (.error e, [l0])
        | .ok agent =>
          match pySub agent "agentName" with
          | .error e => (.error e, [l0])
          | .ok agentName =>
            match pySub agent "agentId" with
            | .error e => (.error e, [l0])
            | .ok agentId =>
              let l1 : LogLine := (.info, "Successfully fetched agent: " ++
                jstr agentName ++ " (ID: " ++ jstr agentId ++ ")")
              match pySub agent "agentId" with
              | .error e => (.error e, [l0, l1])
              | .ok agentId2 =>
                match pyInt agentId2 with
                | .error e => (.error e, [l0, l1])
                | .ok n => (.ok (some n), [l0, l1])
      else
        (.ok none, [l0, (.warning, "No agents found in your account.")])
  else
    (.ok none, [l0, (.error, "Failed to fetch agents: " ++
      toString resp.status ++ " - " ++ resp.text)])

/-- The `for test in ...` loop of `find_existing_test_id`: skip entries
whose `.get("testName")` differs from the target; on the first match log
the found id (a bracket subscript, evaluated again for the return) and
return `int(test["testId"])`; log and return None when the list is
exhausted. -/
def findTestLoop (test_name : String) :
    List Json → Except PyError (Option Int) × List LogLine
  | [] => (.ok none, [(.info, "No existing test named \x27" ++ test_name ++
      "\x27 found.")])
  | t :: rest =>
    match pyGet t "testName" with
    | .error e => (.error e, [])
    | .ok name0 =>
      if jeqStr name0 test_name then
        match pySub t "testId" with
        | .error e => (.error e, [])
        | .ok tid =>
          let l1 : LogLine := (.info, "Found existing test ID: " ++ jstr tid)
          match pySub t "testId" with
          | .error e => (.error e, [l1])
          | .ok tid2 =>
            match pyInt tid2 with
            | .error e => (.error e, [l1])
            | .ok n => (.ok (some n), [l1])
      else
        findTestLoop test_name rest

/-- The body of `find_existing_test_id` after the GET request: on an ok
response scan `json().get("tests", [])` for an exact name match; on a
non-ok response log an error and return None.  Iterating a non-list
value is modelled as a TypeError (the wire contract fixes `tests` to an
array, so this branch is never taken by well-formed responses). -/
def find_existing_test_id (test_name : String) (resp : HttpResponse) :
    Except PyError (Option Int) × List LogLine :=
  let l0 : LogLine := (.info, "Attempting to find existing test with name: \x27" ++
    test_name ++ "\x27")
  if resp.isOk then
    match pyGet resp.jsonBody "tests" with
    | .error e => (.error e, [l0])
    | .ok tests0 =>
      match tests0.getD (.arr []) with
      | .arr tests =>
        let p := findTestLoop test_name tests
        (p.1, l0 :: p.2)
      | _ => (.error (.typeError "not iterable"), [l0])
  else
    (.ok none, [l0, (.error, "Failed to retrieve tests: " ++
      toString resp.status ++ " - " ++ resp.text)])

/-- A list entry that the lookup loop passes over without raising: a
record whose `.get("testName")` succeeds and differs from the target. -/
def isRecordNotNamed (test_name : String) (t : Json) : Bool :=
  match pyGet t "testName" with
  | .ok name0 => !jeqStr name0 test_name
  | .error _ => false

/-- A list entry that the lookup loop matches: a record whose
`.get("testName")` succeeds and equals the target string. -/
def isRecordNamed (test_name : String) (t : Json) : Bool :=
  match pyGet t "testName" with
  | .ok name0 => jeqStr name0 test_name
  | .error _ => false

/-- The request payload built by `create_test`, verbatim from the source
(ICMP protocol and agent-to-server type included). -/
def create_test_payload (test_name target : String) (agent_id : Int)
    (interval : Int) : Json :=
  .obj [("testName", .s test_name), ("type", .s "agent-to-server"),
        ("url", .s target), ("interval", .i interval),
        ("protocol", .s "ICMP"), ("enabled", .b true),
        ("agents", .arr [.obj [("agentId", .i agent_id)]])]

/-- The body of `create_test` after the POST request: on a 201 response
read `json().get("testId")`, log it and return `int(test_id)` (which
raises a TypeError when the id is absent, i.e. None); otherwise log an
error and return None. -/
def create_test (test_name : String) (resp : HttpResponse) :
    Except PyError (Option Int) × List LogLine :=
  let l0 : LogLine := (.info, "Attempting to create a new test: \x27" ++
    test_name ++ "\x27")
  if resp.status = 201 then
    match pyGet resp.jsonBody "testId" with
    | .error e => (.error e, [l0])
    | .ok tid0 =>
      let l1 : LogLine := (.info, "Successfully created test \x27" ++ test_name ++
        "\x27 (ID: " ++ optJstr tid0 ++ ")")
      match pyInt (tid0.getD .null) with
      | .error e => (.error e, [l0, l1])
      | .ok n => (.ok (some n), [l0, l1])
  else
    (.ok none, [l0, (.error, "Error creating test: " ++
      toString resp.status ++ " - " ++ resp.text)])

/-- The body of `get_test_results` after the GET request: on an ok
response return the parsed JSON body, otherwise log an error and return
None. -/
def get_test_results (test_id : Int) (resp : HttpResponse) :
    Option Json × List LogLine :=
  let l0 : LogLine := (.info, "Attempting to fetch test results for test ID: " ++
    toString test_id)
  if resp.isOk then
    (some resp.jsonBody,
     [l0, (.info, "Successfully fetched test results for test ID " ++
       toString test_id)])
  else
    (none, [l0, (.error, "Failed to retrieve test results: " ++
      toString resp.status ++ " - " ++ resp.text)])

/-- Round `m / 10^e` to 4 decimal places as a scaled integer
(value × 10^4), rounding half away from zero: the decimal model of
CPython's fixed-point formatting of the repository's float data. -/
def round4 (m : Int) (e : Nat) : Int :=
  if e ≤ 4 then m * 10 ^ (4 - e)
  else
    Int.sign m * (((m.natAbs + 10 ^ (e - 4) / 2) / 10 ^ (e - 4) : Nat) : Int)

/-- Python f-string `:.4f` formatting of a JSON number; a TypeError on
non-numeric values (as raised by `format`). -/
def format4f (j : Json) : Except PyError String :=
  match j with
  | .i n => .ok (toString n ++ ".0000")
  | .num m e =>
    let r := round4 m e
    .ok ((if r < 0 then "-" else "") ++ toString (r.natAbs / 10 ^ 4) ++ "." ++
      padZeros (toString (r.natAbs % 10 ^ 4)) 4)
  | _ => .error (.typeError "unsupported format string")

/-- The summary block that `analyze_results` builds from the first
result entry, field for field as in the source f-string; the bracket
subscripts (`agent`, `agentName`, `agentId`, `date`) can raise, the
`.get` fields interpolate None when absent, and the health score is
formatted `:.4f` with default 0. -/
def analyze_output (test_name target : String) (result : Json) :
    Except PyError String := do
  let agent1 ← pySub result "agent"
  let agentName ← pySub agent1 "agentName"
  let agent2 ← pySub result "agent"
  let agentId ← pySub agent2 "agentId"
  let date ← pySub result "date"
  let responseCode ← pyGet result "responseCode"
  let responseTime ← pyGet result "responseTime"
  let redirectTime ← pyGet result "redirectTime"
  let dnsTime ← pyGet result "dnsTime"
  let sslTime ← pyGet result "sslTime"
  let connectTime ← pyGet result "connectTime"
  let waitTime ← pyGet result "waitTime"
  let receiveTime ← pyGet result "receiveTime"
  let totalTime ← pyGet result "totalTime"
  let throughput ← pyGet result "throughput"
  let wireSize ← pyGet result "wireSize"
  let serverIp ← pyGet result "serverIp"
  let sslCipher ← pyGet result "sslCipher"
  let sslVersion ← pyGet result "sslVersion"
  let healthScore0 ← pyGet result "healthScore"
  let healthScore ← format4f (healthScore0.getD (.i 0))
  pure ("\n========== HTTP SERVER TEST RESULTS ==========\n" ++
    "Test Name     : " ++ test_name ++ "\n" ++
    "Agent         : " ++ jstr agentName ++ " (ID: " ++ jstr agentId ++ ")\n" ++
    "Test Date     : " ++ jstr date ++ "\n" ++
    "Target URL    : " ++ target ++ "\n" ++
    "----------------------------------------------\n" ++
    "Response Code : " ++ optJstr responseCode ++ "\n" ++
    "Response Time : " ++ optJstr responseTime ++ " ms\n" ++
    "Redirect Time : " ++ optJstr redirectTime ++ " ms\n" ++
    "DNS Time      : " ++ optJstr dnsTime ++ " ms\n" ++
    "SSL Time      : " ++ optJstr sslTime ++ " ms\n" ++
    "Connect Time  : " ++ optJstr connectTime ++ " ms\n" ++
    "Wait Time     : " ++ optJstr waitTime ++ " ms\n" ++
    "Receive Time  : " ++ optJstr receiveTime ++ " ms\n" ++
    "Total Time    : " ++ optJstr totalTime ++ " ms\n" ++
    "Throughput    : " ++ optJstr throughput ++ " bytes/sec\n" ++
    "Wire Size     : " ++ optJstr wireSize ++ " bytes\n" ++
    "Server IP     : " ++ optJstr serverIp ++ "\n" ++
    "SSL Cipher    : " ++ optJstr sslCipher ++ "\n" ++
    "SSL Version   : " ++ optJstr sslVersion ++ "\n" ++
    "Health Score  : " ++ healthScore ++ "\n" ++
    "==============================================\n")

/-- The body of `analyze_results`: read `.get("results", [])` (raising
when the argument is not a dictionary), warn and return on a falsy
entries value, otherwise take the first entry and log the summary block
built from it. -/
def analyze_results (test_name target : String) (results : Json) :
    Except PyError Unit × List LogLine :=
  let l0 : LogLine := (.info, "Analyzing test results.")
  match pyGet results "results" with
  | .error e => (.error e, [l0])
  | .ok entries0 =>
    let entries := entries0.getD (.arr [])
    if jtruthy entries then
      match pyIndex0 entries with
      | .error e => (.error e, [l0])
      | .ok result =>
        match analyze_output test_name target result with
        | .error e => (.error e, [l0])
        | .ok output => (.ok (), [l0, (.info, output)])
    else
      (.ok (), [l0, (.warning,
        "No HTTP Server test results available for analysis.")])

/-- JSON string escaping as performed by `json.dump` for the characters
appearing in this module's data. -/
def escapeJsonString (v : String) : String :=
  v.foldl (fun acc c =>
    acc ++ (if c = '"' then "\\\"" else if c = '\\' then "\\\\"
      else if c = '\n' then "\\n" else if c = '\t' then "\\t"
      else if c = '\r' then "\\r" else String.singleton c)) ""

/-- A run of space characters. -/
def spaces (n : Nat) : String := String.mk (List.replicate n ' ')

mutual
/-- `json.dump(..., indent=2)`: pretty-printing with 2-space indentation
per nesting level, `": "` key separator and `","` item separator. -/
def dumpJson (ind : Nat) : Json → String
  | .null => "null"
  | .b true => "true"
  | .b false => "false"
  | .i n => toString n
  | .num m e => decStr m e
  | .s v => "\"" ++ escapeJsonString v ++ "\""
  | .arr [] => "[]"
  | .arr (x :: xs) =>
    "[\n" ++ dumpItems (ind + 2) x xs ++ "\n" ++ spaces ind ++ "]"
  | .obj [] => "\x7b\x7d"
  | .obj (f :: fs) =>
    "\x7b\n" ++ dumpFields (ind + 2) f fs ++ "\n" ++ spaces ind ++ "\x7d"
termination_by j => sizeOf j

/-- The comma-and-newline separated items of a non-empty array. -/
def dumpItems (ind : Nat) (x : Json) (xs : List Json) : String :=
  match xs with
  | [] => spaces ind ++ dumpJson ind x
  | y :: ys => spaces ind ++ dumpJson ind x ++ ",\n" ++ dumpItems ind y ys
termination_by sizeOf x + sizeOf xs

/-- The comma-and-newline separated fields of a non-empty object. -/
def dumpFields (ind : Nat) (f : String × Json) (fs : List (String × Json)) :
    String :=
  match f, fs with
  | (k, v), [] => spaces ind ++ "\"" ++ escapeJsonString k ++ "\": " ++ dumpJson ind v
  | (k, v), g :: gs => spaces ind ++ "\"" ++ escapeJsonString k ++ "\": " ++
      dumpJson ind v ++ ",\n" ++ dumpFields ind g gs
termination_by sizeOf f + sizeOf fs
end

/-- The Task-1 body of `save_report`: build the report filename, write
the pretty-printed results, log the saved path.  The filesystem's
disposition for the write is an input (`ok ()` when the write succeeds,
`error e` when opening or writing raises with message e, in which case
this body propagates the exception and writes nothing). -/
def save_report (test_name : String) (results : Json)
    (fsOutcome : Except String Unit) :
    Except String (String × String) × List LogLine :=
  let filename := test_name ++ "_report.json"
  match fsOutcome with
  | .error e => (.error e, [])
  | .ok _ =>
    (.ok (filename, dumpJson 0 results),
     [(.info, "Report saved to: " ++ filename)])

/-- Modelled from the spec: the Task 2 error-handling wrapper around the
agent lookup (the completed body is absent from the snapshot; the spec's
error-propagation policy and the unit tests fix its behavior).  The
request-layer call outcome is the input: a raised error message or a
response.  A raised error is caught, logged descriptively, and turned
into an absent result; an internal error in the ok branch is caught the
same way. -/
def get_first_agent_id_safe (call : Except String HttpResponse) :
    Option Int × List LogLine :=
  let l0 : LogLine := (.info, "Attempting to fetch the first agent ID.")
  match call with
  | .error e => (none, [l0, (.error, "Failed to fetch agents: " ++ e)])
  | .ok resp =>
    match get_first_agent_id resp with
    | (.ok v, logs) => (v, logs)
    | (.error pe, logs) =>
      (none, logs ++ [(.error, "Failed to fetch agents: " ++ pyErrStr pe)])

/-- Modelled from the spec: the Task 2 error-handling wrapper around the
test lookup, analogous to the agent-lookup wrapper, with the message
prefix its unit tests expect. -/
def find_existing_test_id_safe (test_name : String)
    (call : Except String HttpResponse) : Option Int × List LogLine :=
  let l0 : LogLine := (.info, "Attempting to find existing test with name: \x27" ++
    test_name ++ "\x27")
  match call with
  | .error e => (none, [l0, (.error, "Failed to retrieve tests: " ++ e)])
  | .ok resp =>
    match find_existing_test_id test_name resp with
    | (.ok v, logs) => (v, logs)
    | (.error pe, logs) =>
      (none, logs ++ [(.error, "Failed to retrieve tests: " ++ pyErrStr pe)])

/-- Modelled from the spec: the Task 2 error-handling wrapper around the
test creation, with the message prefix its unit tests expect. -/
def create_test_safe (test_name : String)
    (call : Except String HttpResponse) : Option Int × List LogLine :=
  let l0 : LogLine := (.info, "Attempting to create a new test: \x27" ++
    test_name ++ "\x27")
  match call with
  | .error e => (none, [l0, (.error, "Error creating test: " ++ e)])
  | .ok resp =>
    match create_test test_name resp with
    | (.ok v, logs) => (v, logs)
    | (.error pe, logs) =>
      (none, logs ++ [(.error, "Error creating test: " ++ pyErrStr pe)])

/-- Modelled from the spec: the Task 2 error-handling wrapper around the
result retrieval, with the message prefix its unit tests expect. -/
def get_test_results_safe (test_id : Int)
    (call : Except String HttpResponse) : Option Json × List LogLine :=
  let l0 : LogLine := (.info, "Attempting to fetch test results for test ID: " ++
    toString test_id)
  match call with
  | .error e =>
    (none, [l0, (.error, "Failed to retrieve test results: " ++ e)])
  | .ok resp => get_test_results test_id resp

/-- Modelled from the spec: the Task 2 error-handling wrapper around
report persistence (a write failure is caught and logged, not
propagated; its unit tests expect a `Failed to save report: ...`
message). -/
def save_report_safe (test_name : String) (results : Json)
    (fsOutcome : Except String Unit) :
    Option (String × String) × List LogLine :=
  match save_report test_name results fsOutcome with
  | (.ok file, logs) => (some file, logs)
  | (.error e, _) => (none, [(.error, "Failed to save report: " ++ e)])

/-- The single-agent record of the repository's unit-test fixtures. -/
def agentRecord : Json :=
  .obj [("agentId", .s "3"), ("agentName", .s "Singapore"),
        ("countryId", .s "SG")]

/-- An ok agents response with one agent (unit-test fixture data). -/
def agentsOkResp : HttpResponse :=
  ⟨200, [], .obj [("agents", .arr [agentRecord])], ""⟩

/-- An ok agents response whose agents array is empty. -/
def agentsEmptyResp : HttpResponse :=
  ⟨200, [], .obj [("agents", .arr [])], ""⟩

/-- The test record of the repository's unit-test fixtures. -/
def testRecord : Json :=
  .obj [("interval", .i 3600), ("testId", .s "6969142"),
        ("testName", .s "Cisco.com Test"),
        ("createdBy", .s "Student (student@cisco.com)"),
        ("createdDate", .s "2025-04-10T13:42:26Z"),
        ("type", .s "http-server"), ("enabled", .b true),
        ("url", .s "https://cisco.com")]

/-- A test record with a different name (unit-test fixture data). -/
def otherRecord : Json :=
  .obj [("testId", .s "7890123"), ("testName", .s "Different Test")]

/-- An ok tests-list response containing a non-match then the match. -/
def testsMatchResp : HttpResponse :=
  ⟨200, [], .obj [("tests", .arr [otherRecord, testRecord])], ""⟩

/-- An ok tests-list response containing no record with the target
name. -/
def testsNoMatchResp : HttpResponse :=
  ⟨200, [], .obj [("tests", .arr [otherRecord])], ""⟩

/-- The per-run result entry of the repository's unit-test fixtures. -/
def resultEntry : Json :=
  .obj [("agent", agentRecord), ("date", .s "2025-04-10T15:20:39Z"),
        ("responseCode", .i 200), ("responseTime", .i 125),
        ("redirectTime", .i 1741), ("dnsTime", .i 90), ("sslTime", .i 8),
        ("connectTime", .i 4), ("waitTime", .i 23), ("receiveTime", .i 1),
        ("totalTime", .i 126), ("throughput", .i 16682395),
        ("wireSize", .i 18384), ("serverIp", .s "23.54.57.29"),
        ("sslCipher", .s "TLS_AES_256_GCM_SHA384"),
        ("sslVersion", .s "TLSv1.3"), ("healthScore", .num 99988276 8)]

/-- A results object with exactly the fixture entry. -/
def resultsObjA : Json := .obj [("results", .arr [resultEntry])]

/-- A results object with the same first entry, an extra later entry,
and an extra unrelated top-level field. -/
def resultsObjB : Json :=
  .obj [("results", .arr [resultEntry, .obj [("responseCode", .i 500)]]),
        ("test", .s "other run")]

/-- A 429 status is not a success status. -/
theorem is2xx_429 : is2xx 429 = false := rfl

/-- Claim C1: for every invocation of the resilient request executor in
which the first HTTP attempt returns a 2xx status, the executor returns
that response immediately, performs exactly one network call, and sleeps
zero times. -/
theorem c1_first_2xx_returns_immediately (cfg : RetryConfig)
    (r : HttpResponse) (rest : List AttemptResult)
    (h : is2xx r.status = true) :
    api_request cfg (.resp r :: rest) = (.ok r, ⟨1, []⟩) := by
  simp [api_request, apiRequestGo, h]

/-- Witness for C1 at a concrete input: a first response with status 200
is returned after one call and zero sleeps. -/
theorem c1_witness :
    api_request cfgTE [.resp (respOf 200 "body")] =
      (.ok (respOf 200 "body"), ⟨1, []⟩) :=
  c1_first_2xx_returns_immediately cfgTE (respOf 200 "body") [] (by decide)

/-- Claim C2: for a 429 response carrying a 60-second reset hint followed
by a 2xx response, the executor performs exactly two network calls,
sleeps exactly once for the header-specified 60 seconds, returns the
second response, and the 429 attempt leaves the transient-retry counter
untouched (the result is the same at every counter and delay value). -/
theorem c2_rate_limit_then_success (cfg : RetryConfig)
    (r1 r2 : HttpResponse) (rest : List AttemptResult)
    (h429 : r1.status = 429) (hreset : resetWait cfg r1 = 60)
    (h2 : is2xx r2.status = true) :
    api_request cfg (.resp r1 :: .resp r2 :: rest) = (.ok r2, ⟨2, [60]⟩)
    ∧ ∀ attempts delay,
        apiRequestGo cfg attempts delay (.resp r1 :: .resp r2 :: rest) =
          (.ok r2, ⟨2, [60]⟩) := by
  have h1 : is2xx r1.status = false := by rw [h429]; rfl
  have hgo : ∀ attempts delay,
      apiRequestGo cfg attempts delay (.resp r1 :: .resp r2 :: rest) =
        (.ok r2, ⟨2, [60]⟩) := by
    intro a d
    simp [apiRequestGo, h1, h429, hreset, h2, is2xx_429]
  exact ⟨hgo 0 cfg.baseDelay, hgo⟩

/-- Witness for C2 at a concrete input: a 429 with reset header 60 and
then a 200 gives two calls, one 60-second sleep, and the 200 response. -/
theorem c2_witness :
    api_request cfgTE [.resp resp429, .resp (respOf 200 "fine")] =
      (.ok (respOf 200 "fine"), ⟨2, [60]⟩) :=
  (c2_rate_limit_then_success cfgTE resp429 (respOf 200 "fine") []
    (by decide) (by decide) (by decide)).1

/-- Claim C3: with a maximum of 3 transient attempts and a base delay of
1 second (cap at least 2), a run in which every attempt returns HTTP 500
performs exactly 3 network calls, sleeps exactly twice with delays 1 s
then 2 s (doubling), and raises a retries-exhausted error instead of
returning a value. -/
theorem c3_all_500_exhausts_retries (cfg : RetryConfig)
    (r1 r2 r3 r4 r5 : HttpResponse)
    (hm : cfg.maxAttempts = 3) (hb : cfg.baseDelay = 1)
    (hc : 2 ≤ cfg.maxDelay)
    (h1 : r1.status = 500) (h2 : r2.status = 500) (h3 : r3.status = 500)
    (_h4 : r4.status = 500) (_h5 : r5.status = 500) :
    api_request cfg [.resp r1, .resp r2, .resp r3, .resp r4, .resp r5] =
      (.err .retriesExhausted, ⟨3, [1, 2]⟩) := by
  have hmin : min 2 cfg.maxDelay = 2 := Nat.min_eq_left hc
  simp [api_request, apiRequestGo, h1, h2, h3, hm, hb, hmin,
    is2xx, is5xx]

/-- Witness for C3 at a concrete input: five 500 responses under the
3-attempt configuration give 3 calls, sleeps [1, 2], and a raise. -/
theorem c3_witness :
    api_request cfgTE
        [.resp (respOf 500 "e"), .resp (respOf 500 "e"),
         .resp (respOf 500 "e"), .resp (respOf 500 "e"),
         .resp (respOf 500 "e")] =
      (.err .retriesExhausted, ⟨3, [1, 2]⟩) :=
  c3_all_500_exhausts_retries cfgTE _ _ _ _ _ rfl rfl (by decide)
    rfl rfl rfl rfl rfl

/-- Claim C4: a first response that is a non-429, non-2xx client error
(4xx other than 429, such as 404) makes the executor raise a terminal
error immediately, after exactly one network call and zero sleeps. -/
theorem c4_client_error_terminal (cfg : RetryConfig)
    (r : HttpResponse) (rest : List AttemptResult)
    (h400 : 400 ≤ r.status) (h500 : r.status < 500)
    (h429 : r.status ≠ 429) :
    api_request cfg (.resp r :: rest) =
      (.err (.terminalStatus r.status), ⟨1, []⟩) := by
  have hx : is2xx r.status = false := by
    simp only [is2xx, Bool.and_eq_false_iff, decide_eq_false_iff_not]
    omega
  have hy : is5xx r.status = false := by
    simp only [is5xx, Bool.and_eq_false_iff, decide_eq_false_iff_not]
    omega
  simp [api_request, apiRequestGo, hx, hy, h429]

/-- Witness for C4 at a concrete input: a single 404 response raises a
terminal error after one call and zero sleeps. -/
theorem c4_witness :
    api_request cfgTE [.resp (respOf 404 "not found")] =
      (.err (.terminalStatus 404), ⟨1, []⟩) :=
  c4_client_error_terminal cfgTE (respOf 404 "not found") []
    (by decide) (by decide) (by decide)

/-- Every executor run resolves to a returned 2xx response or a raised
error; the only other case is the modelling artifact in which the finite
script ran out, and then every scripted outcome was consumed (one
network call each).  There is no sentinel failure value. -/
theorem apiRequestGo_resolves (cfg : RetryConfig) :
    ∀ (script : List AttemptResult) (a d : Nat),
      (∃ r, (apiRequestGo cfg a d script).1 = .ok r ∧ is2xx r.status = true)
      ∨ (∃ e, (apiRequestGo cfg a d script).1 = .err e)
      ∨ ((apiRequestGo cfg a d script).1 = .outOfScript ∧
          (apiRequestGo cfg a d script).2.calls = script.length) := by
  intro script
  induction script with
  | nil =>
    intro a d
    right; right
    simp [apiRequestGo]
  | cons x rest ih =>
    intro a d
    cases x with
    | resp r =>
      by_cases h2 : is2xx r.status
      · left
        exact ⟨r, by simp [apiRequestGo, h2], h2⟩
      · by_cases h429 : r.status = 429
        · have hstep : apiRequestGo cfg a d (.resp r :: rest) =
              ((apiRequestGo cfg a d rest).1,
               ⟨(apiRequestGo cfg a d rest).2.calls + 1,
                resetWait cfg r :: (apiRequestGo cfg a d rest).2.sleeps⟩) := by
            simp [apiRequestGo, h2, h429, is2xx_429]
          rcases ih a d with ⟨r', hr', hx⟩ | ⟨e, he⟩ | ⟨ho, hcount⟩
          · left; exact ⟨r', by rw [hstep]; exact hr', hx⟩
          · right; left; exact ⟨e, by rw [hstep]; exact he⟩
          · right; right
            constructor
            · rw [hstep]; exact ho
            · rw [hstep]; simpa using hcount
        · by_cases h5 : is5xx r.status
          · by_cases hmax : cfg.maxAttempts ≤ a + 1
            · right; left
              exact ⟨.retriesExhausted, by simp [apiRequestGo, h2, h429, h5, hmax]⟩
            · have hstep : apiRequestGo cfg a d (.resp r :: rest) =
                  ((apiRequestGo cfg (a + 1) (min (d * 2) cfg.maxDelay) rest).1,
                   ⟨(apiRequestGo cfg (a + 1) (min (d * 2) cfg.maxDelay) rest).2.calls + 1,
                    d :: (apiRequestGo cfg (a + 1) (min (d * 2) cfg.maxDelay) rest).2.sleeps⟩) := by
                simp [apiRequestGo, h2, h429, h5, hmax]
              rcases ih (a + 1) (min (d * 2) cfg.maxDelay) with
                ⟨r', hr', hx⟩ | ⟨e, he⟩ | ⟨ho, hcount⟩
              · left; exact ⟨r', by rw [hstep]; exact hr', hx⟩
              · right; left; exact ⟨e, by rw [hstep]; exact he⟩
              · right; right
                constructor
                · rw [hstep]; exact ho
                · rw [hstep]; simpa using hcount
          · right; left
            exact ⟨.terminalStatus r.status, by simp [apiRequestGo, h2, h429, h5]⟩
    | netErr msg =>
      by_cases hmax : cfg.maxAttempts ≤ a + 1
      · right; left
        exact ⟨.retriesExhausted, by simp [apiRequestGo, hmax]⟩
      · have hstep : apiRequestGo cfg a d (.netErr msg :: rest) =
            ((apiRequestGo cfg (a + 1) (min (d * 2) cfg.maxDelay) rest).1,
             ⟨(apiRequestGo cfg (a + 1) (min (d * 2) cfg.maxDelay) rest).2.calls + 1,
              d :: (apiRequestGo cfg (a + 1) (min (d * 2) cfg.maxDelay) rest).2.sleeps⟩) := by
          simp [apiRequestGo, hmax]
        rcases ih (a + 1) (min (d * 2) cfg.maxDelay) with
          ⟨r', hr', hx⟩ | ⟨e, he⟩ | ⟨ho, hcount⟩
        · left; exact ⟨r', by rw [hstep]; exact hr', hx⟩
        · right; left; exact ⟨e, by rw [hstep]; exact he⟩
        · right; right
          constructor
          · rw [hstep]; exact ho
          · rw [hstep]; simpa using hcount

/-- Claim C5: every invocation of the executor either returns a (2xx)
response or raises an error; it never returns a sentinel failed value.
The third disjunct is the finite-script modelling artifact: the script
was exhausted, every scripted outcome having been consumed by a network
call, which cannot occur against a real server. -/
theorem c5_raise_or_return_no_sentinel (cfg : RetryConfig)
    (script : List AttemptResult) :
    (∃ r, (api_request cfg script).1 = .ok r ∧ is2xx r.status = true)
    ∨ (∃ e, (api_request cfg script).1 = .err e)
    ∨ ((api_request cfg script).1 = .outOfScript ∧
        (api_request cfg script).2.calls = script.length) :=
  apiRequestGo_resolves cfg script 0 cfg.baseDelay

/-- Witness for C5 at a concrete input: a one-response script resolves
into one of the stated cases. -/
theorem c5_witness :
    (∃ r, (api_request cfgTE [.resp (respOf 204 "no content")]).1 = .ok r ∧
      is2xx r.status = true)
    ∨ (∃ e, (api_request cfgTE [.resp (respOf 204 "no content")]).1 = .err e)
    ∨ ((api_request cfgTE [.resp (respOf 204 "no content")]).1 = .outOfScript ∧
        (api_request cfgTE [.resp (respOf 204 "no content")]).2.calls =
          [AttemptResult.resp (respOf 204 "no content")].length) :=
  c5_raise_or_return_no_sentinel cfgTE [.resp (respOf 204 "no content")]

/-- Claim C6: an error raised by the request layer into any of the four
collaborator functions is caught there: the collaborator returns an
absent result and logs a descriptive error message; nothing propagates
(the wrappers are total functions into plain result-and-log pairs). -/
theorem c6_collaborators_catch_request_errors (e : String)
    (test_name : String) (test_id : Int) :
    get_first_agent_id_safe (.error e) =
      (none, [(.info, "Attempting to fetch the first agent ID."),
              (.error, "Failed to fetch agents: " ++ e)])
    ∧ find_existing_test_id_safe test_name (.error e) =
      (none, [(.info, "Attempting to find existing test with name: \x27" ++
                test_name ++ "\x27"),
              (.error, "Failed to retrieve tests: " ++ e)])
    ∧ create_test_safe test_name (.error e) =
      (none, [(.info, "Attempting to create a new test: \x27" ++
                test_name ++ "\x27"),
              (.error, "Error creating test: " ++ e)])
    ∧ get_test_results_safe test_id (.error e) =
      (none, [(.info, "Attempting to fetch test results for test ID: " ++
                toString test_id),
              (.error, "Failed to retrieve test results: " ++ e)]) :=
  ⟨rfl, rfl, rfl, rfl⟩

/-- Witness for C6 at concrete inputs: the unit tests' error message and
fixture names. -/
theorem c6_witness :
    get_first_agent_id_safe (.error "API Error") =
      (none, [(.info, "Attempting to fetch the first agent ID."),
              (.error, "Failed to fetch agents: " ++ "API Error")])
    ∧ find_existing_test_id_safe "Cisco.com Test" (.error "API Error") =
      (none, [(.info, "Attempting to find existing test with name: \x27" ++
                "Cisco.com Test" ++ "\x27"),
              (.error, "Failed to retrieve tests: " ++ "API Error")])
    ∧ create_test_safe "Cisco.com Test" (.error "API Error") =
      (none, [(.info, "Attempting to create a new test: \x27" ++
                "Cisco.com Test" ++ "\x27"),
              (.error, "Error creating test: " ++ "API Error")])
    ∧ get_test_results_safe 6969142 (.error "API Error") =
      (none, [(.info, "Attempting to fetch test results for test ID: " ++
                toString (6969142 : Int)),
              (.error, "Failed to retrieve test results: " ++ "API Error")]) :=
  c6_collaborators_catch_request_errors "API Error" "Cisco.com Test" 6969142

/-- The lookup loop returns an absent result (with the not-found log)
when every entry is a record whose name differs from the target. -/
theorem findTestLoop_no_match (test_name : String) :
    ∀ ts : List Json, ts.all (isRecordNotNamed test_name) = true →
      findTestLoop test_name ts =
        (.ok none, [(.info, "No existing test named \x27" ++ test_name ++
          "\x27 found.")]) := by
  intro ts
  induction ts with
  | nil => intro _; rfl
  | cons t rest ih =>
    intro h
    rw [List.all_cons, Bool.and_eq_true] at h
    obtain ⟨h1, h2⟩ := h
    cases hp : pyGet t "testName" with
    | error e => rw [isRecordNotNamed, hp] at h1; exact absurd h1 (by simp)
    | ok name0 =>
      rw [isRecordNotNamed, hp] at h1
      have hne : jeqStr name0 test_name = false := by
        simpa using h1
      rw [findTestLoop, hp]
      simp only [hne, Bool.false_eq_true, if_false]
      exact ih h2

/-- The lookup loop returns the first matching record's id as an integer
after skipping any prefix of non-matching records. -/
theorem findTestLoop_first_match (test_name : String) (t tid : Json)
    (n : Int) (post : List Json)
    (hmatch : isRecordNamed test_name t = true)
    (hsub : pySub t "testId" = .ok tid) (hint : pyInt tid = .ok n) :
    ∀ pre : List Json, pre.all (isRecordNotNamed test_name) = true →
      findTestLoop test_name (pre ++ t :: post) =
        (.ok (some n), [(.info, "Found existing test ID: " ++ jstr tid)]) := by
  intro pre
  induction pre with
  | nil =>
    intro _
    cases hp : pyGet t "testName" with
    | error e => rw [isRecordNamed, hp] at hmatch; exact absurd hmatch (by simp)
    | ok name0 =>
      rw [isRecordNamed, hp] at hmatch
      have hj : jeqStr name0 test_name = true := by simpa using hmatch
      simp only [List.nil_append]
      rw [findTestLoop, hp]
      simp [hj, hsub, hint]
  | cons p rest ih =>
    intro h
    rw [List.all_cons, Bool.and_eq_true] at h
    obtain ⟨h1, h2⟩ := h
    cases hp : pyGet p "testName" with
    | error e => rw [isRecordNotNamed, hp] at h1; exact absurd h1 (by simp)
    | ok name0 =>
      rw [isRecordNotNamed, hp] at h1
      have hne : jeqStr name0 test_name = false := by
        simpa using h1
      simp only [List.cons_append]
      rw [findTestLoop, hp]
      simp only [hne, Bool.false_eq_true, if_false]
      exact ih h2

/-- Claim C7: against a successful tests-list response, the lookup
returns an absent result when no record's name field equals the target
string, and returns the first matching record's testId converted to an
integer when a match exists. -/
theorem c7_find_test_by_name (test_name : String) (resp : HttpResponse)
    (ts : List Json)
    (hok : resp.isOk = true)
    (hbody : pyGet resp.jsonBody "tests" = .ok (some (.arr ts))) :
    (ts.all (isRecordNotNamed test_name) = true →
      (find_existing_test_id test_name resp).1 = .ok none)
    ∧ ∀ (pre post : List Json) (t tid : Json) (n : Int),
        ts = pre ++ t :: post →
        pre.all (isRecordNotNamed test_name) = true →
        isRecordNamed test_name t = true →
        pySub t "testId" = .ok tid → pyInt tid = .ok n →
        (find_existing_test_id test_name resp).1 = .ok (some n) := by
  constructor
  · intro h
    simp [find_existing_test_id, hok, hbody,
      findTestLoop_no_match test_name ts h]
  · intro pre post t tid n hts hpre hm hs hi
    subst hts
    simp [find_existing_test_id, hok, hbody,
      findTestLoop_first_match test_name t tid n post hm hs hi pre hpre]

/-- Witness for C7 at concrete inputs: the fixture list without a
matching name yields an absent result; the fixture list with the
matching record (after one non-match) yields its id 6969142. -/
theorem c7_witness :
    (find_existing_test_id "Cisco.com Test" testsNoMatchResp).1 = .ok none
    ∧ (find_existing_test_id "Cisco.com Test" testsMatchResp).1 =
        .ok (some 6969142) :=
  ⟨(c7_find_test_by_name "Cisco.com Test" testsNoMatchResp [otherRecord]
      rfl rfl).1 rfl,
   (c7_find_test_by_name "Cisco.com Test" testsMatchResp
      [otherRecord, testRecord] rfl rfl).2
      [otherRecord] [] testRecord (.s "6969142") 6969142 rfl rfl rfl rfl rfl⟩

/-- Claim C8: a successful agents response whose agents array is empty
makes the agent lookup return an absent result and log a warning,
raising nothing. -/
theorem c8_empty_agents_warns (resp : HttpResponse)
    (hok : resp.isOk = true)
    (hbody : pyGet resp.jsonBody "agents" = .ok (some (.arr []))) :
    get_first_agent_id resp =
      (.ok none, [(.info, "Attempting to fetch the first agent ID."),
                  (.warning, "No agents found in your account.")]) := by
  simp [get_first_agent_id, hok, hbody, jtruthy]

/-- Witness for C8 at a concrete input: the empty-agents fixture
response. -/
theorem c8_witness :
    get_first_agent_id agentsEmptyResp =
      (.ok none, [(.info, "Attempting to fetch the first agent ID."),
                  (.warning, "No agents found in your account.")]) :=
  c8_empty_agents_warns agentsEmptyResp rfl rfl

/-- Claim C9: report persistence writes a file named exactly
`<test_name>_report.json` whose content is the input JSON pretty-printed
with 2-space indentation, and a write failure is caught and logged
rather than propagated. -/
theorem c9_save_report_roundtrip (test_name : String) (results : Json) :
    save_report_safe test_name results (.ok ()) =
      (some (test_name ++ "_report.json", dumpJson 0 results),
       [(.info, "Report saved to: " ++ test_name ++ "_report.json")])
    ∧ ∀ e : String, save_report_safe test_name results (.error e) =
        (none, [(.error, "Failed to save report: " ++ e)]) :=
  ⟨rfl, fun _ => rfl⟩

/-- Witness for C9 at concrete inputs: a successful write produces the
expected filename and content, a permission failure is caught and
logged. -/
theorem c9_witness :
    save_report_safe "Cisco.com Test" resultsObjA (.ok ()) =
      (some ("Cisco.com Test" ++ "_report.json", dumpJson 0 resultsObjA),
       [(.info, "Report saved to: " ++ "Cisco.com Test" ++ "_report.json")])
    ∧ save_report_safe "Cisco.com Test" resultsObjA
        (.error "Permission denied") =
      (none, [(.error, "Failed to save report: " ++ "Permission denied")]) :=
  ⟨(c9_save_report_roundtrip "Cisco.com Test" resultsObjA).1,
   (c9_save_report_roundtrip "Cisco.com Test" resultsObjA).2 "Permission denied"⟩

/-- Claim C10: the analysis summary depends only on the first element of
the results array: two results objects whose arrays share their first
entry produce identical outcomes and logs, whatever their later entries
or other fields. -/
theorem c10_analysis_depends_on_first_entry (test_name target : String)
    (r1 r2 entry : Json) (t1 t2 : List Json)
    (h1 : pyGet r1 "results" = .ok (some (.arr (entry :: t1))))
    (h2 : pyGet r2 "results" = .ok (some (.arr (entry :: t2)))) :
    analyze_results test_name target r1 =
      analyze_results test_name target r2 := by
  simp [analyze_results, h1, h2, jtruthy, pyIndex0]

/-- Witness for C10 at concrete inputs: the fixture results object and a
variant with an extra later entry and an extra top-level field produce
the same analysis. -/
theorem c10_witness :
    analyze_results "Cisco.com Test" "https://cisco.com" resultsObjA =
      analyze_results "Cisco.com Test" "https://cisco.com" resultsObjB :=
  c10_analysis_depends_on_first_entry "Cisco.com Test" "https://cisco.com"
    resultsObjA resultsObjB resultEntry [] [.obj [("responseCode", .i 500)]]
    rfl rfl

end TeTests
